import Mathlib

/-!
Verification development for the WhatsApp pairing-code service.

The repository has three server variants:
  * `src/server.js`          (embedded here with suffix `Srv`),
  * `src/unnamed/part_000`   (embedded here with suffix `P0`),
  * `src/pairing-server.js`  (the database-backed variant, prefix `Db`).

Machine integers are modelled as `Nat` (timestamps are milliseconds since
the epoch, well below 2^53 so JavaScript number arithmetic is exact).
The JavaScript `Map` over pairing codes is modelled as an association list
`List (String × Session)` whose operations mirror `Map.has`, `Map.get`,
`Map.set` (replace-in-place or append) and `Map.delete`.  Randomness
(`Math.random()`) is modelled as an explicit stream `randoms : Nat → Nat`
of draws, consumed left to right; unbounded JavaScript loops take a fuel
argument and return `Option`, with `none` meaning the fuel ran out before
the loop exited.
-/

/-- Session status of the in-memory variants: the literal strings
`'pending'` and `'linked'` appear in `server.js` and `part_000`; the spec
additionally names `expired` and `used` as terminal states. -/
inductive Status where
  | pending
  | linked
  | expired
  | used
deriving Repr, DecidableEq

/-- The record stored in `pairingCodes` by `generateNewPairingCode`
(`server.js` lines 185-197, `part_000` lines 177-187).  `qrData` and
`qrImage` exist only in the `server.js` variant; `part_000` inserts
records without them, modelled as `none`. -/
structure Session where
  code : String
  phoneNumber : Option String
  sessionId : String
  status : Status
  createdAt : Nat
  expiresAt : Nat
  linkedAt : Option Nat
  linkedTo : Option String
  qrData : Option String
  qrImage : Option String
  attempts : Nat
deriving Repr, DecidableEq

/-- The `pairingCodes` JavaScript `Map`, as an insertion-ordered
association list. -/
abbrev Store := List (String × Session)

/-- `pairingCodes.has(k)`. -/
def mapHas (store : Store) (k : String) : Bool :=
  store.any (fun p => p.1 == k)

/-- `pairingCodes.get(k)`. -/
def mapGet (store : Store) (k : String) : Option Session :=
  Option.map Prod.snd (store.find? (fun p => p.1 == k))

/-- `pairingCodes.set(k, v)`: replaces the binding in place when the key
is present (JavaScript `Map.set` keeps insertion order), else appends. -/
def mapSet (store : Store) (k : String) (v : Session) : Store :=
  if mapHas store k then store.map (fun p => if p.1 == k then (k, v) else p)
  else store ++ [(k, v)]

/-- `pairingCodes.delete(k)`. -/
def mapDelete (store : Store) (k : String) : Store :=
  store.filter (fun p => !(p.1 == k))

/-- Well-formedness of the `Map` model: one binding per key.  A real
JavaScript `Map` satisfies this by construction. -/
def nodupKeys (store : Store) : Prop :=
  (store.map Prod.fst).Nodup

-- ==================== CONFIGURATION ====================

/-- `CONFIG.CODE_LENGTH` (both in-memory variants). -/
def codeLength : Nat := 8

/-- `CONFIG.CODE_EXPIRY_MINUTES * 60 * 1000` in milliseconds. -/
def codeExpiryMs : Nat := 10 * 60 * 1000

-- ==================== CODE GENERATOR ====================

/-- The alphabet `'ABCDEFGHIJKLMNOPQRSTUVWXYZ0123456789'` of
`generateAlphanumericCode`. -/
def codeChars : List Char := "ABCDEFGHIJKLMNOPQRSTUVWXYZ0123456789".toList

/-- One pass of the sampling loop
`for (i = 0; i < CODE_LENGTH; i++) code += chars.charAt(floor(random()*chars.length))`:
builds an 8-character string from the draws `randoms off .. randoms (off+7)`
(each draw reduced mod the alphabet size, as `charAt(floor(random()*36))`
always lands inside the alphabet). -/
def sampleCode (randoms : Nat → Nat) (off : Nat) : String :=
  String.mk ((List.range codeLength).map
    (fun i => codeChars.getD (randoms (off + i) % codeChars.length) 'A'))

/-- `/[A-Z]/.test(code)` on a character. -/
def isUpperAZ (c : Char) : Bool := decide ('A' ≤ c) && decide (c ≤ 'Z')

/-- `/[0-9]/.test(code)` on a character. -/
def isDigit09 (c : Char) : Bool := decide ('0' ≤ c) && decide (c ≤ '9')

/-- `const hasLetters = /[A-Z]/.test(code)`. -/
def hasLetters (s : String) : Bool := s.data.any isUpperAZ

/-- `const hasNumbers = /[0-9]/.test(code)`. -/
def hasNumbers (s : String) : Bool := s.data.any isDigit09

/-- `generateAlphanumericCode` (`server.js` lines 35-51, `part_000`
lines 28-45): sample 8 characters; if the result lacks a letter or a
digit, recurse.  The source recursion is unbounded; `fuel` bounds the
number of attempts in the model and the result also carries the next
unread position of the random stream. -/
def generateAlphanumericCode (randoms : Nat → Nat) (off : Nat) (fuel : Nat) :
    Option (String × Nat) :=
  match fuel with
  | 0 => none
  | Nat.succ fuel2 =>
    let code := sampleCode randoms off
    if hasLetters code && hasNumbers code then some (code, off + codeLength)
    else generateAlphanumericCode randoms (off + codeLength) fuel2

/-- `Date.now().toString().slice(-4)` (`part_000` line 171). -/
def lastFour (n : Nat) : String :=
  let s := toString n
  String.mk (s.data.drop (s.data.length - 4))

/-- The do-while collision loop of `part_000`'s `generateNewPairingCode`
(lines 162-168):
`do { code = generateAlphanumericCode(); attempts++; } while (pairingCodes.has(code) && attempts < 10)`.
`rem` is a structural recursion bound: the loop body runs at most 10
times because `attempts` is incremented each iteration and the guard
requires `attempts < 10`, so starting from `rem = 10, attempts = 0` the
`rem = 0` branch is unreachable. -/
def collisionLoopAux (randoms : Nat → Nat) (fuel : Nat) (store : Store) :
    Nat → Nat → Nat → Option (String × Nat × Nat)
  | 0, _, _ => none
  | Nat.succ rem, off, attempts =>
    match generateAlphanumericCode randoms off fuel with
    | none => none
    | some (code, off2) =>
      let att2 := attempts + 1
      if mapHas store code && decide (att2 < 10) then
        collisionLoopAux randoms fuel store rem off2 att2
      else
        some (code, off2, att2)

/-- The collision loop as entered by `part_000`'s
`generateNewPairingCode`: `attempts` starts at 0.  Returns the sampled
code, the next stream position, and the final value of `attempts`. -/
def collisionLoop (randoms : Nat → Nat) (fuel : Nat) (store : Store) :
    Option (String × Nat × Nat) :=
  collisionLoopAux randoms fuel store 10 0 0

/-- The code-choice part of `part_000`'s `generateNewPairingCode`
(lines 162-172): run the collision loop, then
`if (attempts >= 10) code = generateAlphanumericCode() + '_' + Date.now().toString().slice(-4)`. -/
def choosePairingCode (randoms : Nat → Nat) (fuel : Nat) (store : Store)
    (now : Nat) : Option String :=
  match collisionLoop randoms fuel store with
  | none => none
  | some (code, off2, attempts) =>
    if 10 ≤ attempts then
      match generateAlphanumericCode randoms off2 fuel with
      | none => none
      | some (code2, _) => some (code2 ++ "_" ++ lastFour now)
    else some code

-- ==================== PAIRING CODE MANAGEMENT ====================

/-- The fresh record inserted by both in-memory variants of
`generateNewPairingCode`: status `'pending'`, `expiresAt = now + TTL`,
`linkedAt`/`linkedTo` null, `attempts` 0. -/
def freshSession (code : String) (phone : Option String) (sessionId : String)
    (now : Nat) (qrData qrImage : Option String) : Session :=
  { code := code, phoneNumber := phone, sessionId := sessionId,
    status := Status.pending, createdAt := now,
    expiresAt := now + codeExpiryMs, linkedAt := none, linkedTo := none,
    qrData := qrData, qrImage := qrImage, attempts := 0 }

/-- `generateNewPairingCode` of `part_000` (lines 161-200): choose a code
through the collision loop (with timestamp fallback), insert the fresh
pending record, and return `{ code, sessionId, expiresAt }`.  The
`sessionId` (built in the source from `Date.now()` and random bytes) is a
parameter.  The scheduled expiry `setTimeout` is modelled separately as
`expiryAction`. -/
def generateNewPairingCodeP0 (randoms : Nat → Nat) (fuel : Nat) (now : Nat)
    (sessionId : String) (store : Store) (phone : Option String) :
    Option (String × Nat × Store) :=
  match choosePairingCode randoms fuel store now with
  | none => none
  | some code =>
    let record := freshSession code phone sessionId now none none
    some (code, now + codeExpiryMs, mapSet store code record)

/-- `generateNewPairingCode` of `server.js` (lines 180-213): calls
`generateAlphanumericCode` once, with no collision check against the
store, inserts the fresh pending record (carrying the current
`currentQR`/`qrImageDataUrl` globals) and returns
`{ code, sessionId, expiresAt }`. -/
def generateNewPairingCodeSrv (randoms : Nat → Nat) (fuel : Nat) (now : Nat)
    (sessionId : String) (qrData qrImage : Option String) (store : Store)
    (phone : Option String) : Option (String × Nat × Store) :=
  match generateAlphanumericCode randoms 0 fuel with
  | none => none
  | some (code, _) =>
    let record := freshSession code phone sessionId now qrData qrImage
    some (code, now + codeExpiryMs, mapSet store code record)

/-- The body of the expiry `setTimeout` scheduled at creation, identical
in both in-memory variants (`server.js` lines 205-210, `part_000` lines
192-197):
`if (pairingCodes.has(code) && pairingCodes.get(code).status === 'pending') pairingCodes.delete(code)`. -/
def expiryAction (code : String) (store : Store) : Store :=
  match mapGet store code with
  | some s => if s.status = Status.pending then mapDelete store code else store
  | none => store

-- ==================== CONNECTION STATE ====================

/-- Values taken by the `botStatus` global across the in-memory
variants. -/
inductive BotStatus where
  | disconnected
  | connecting
  | qrReady
  | online
  | reconnecting
  | error
deriving Repr, DecidableEq

/-- `DisconnectReason.loggedOut` of the Baileys collaborator library;
`part_000` compares the close status code against the literal 401. -/
def disconnectReasonLoggedOut : Nat := 401

/-- Observable effect of a `connection === 'close'` event: the resulting
`botStatus`, whether the stored credentials were removed, and the delay
of the scheduled `setTimeout(initWhatsApp, ...)` reconnect, if any. -/
structure CloseEffect where
  botStatus : BotStatus
  credsCleared : Bool
  reconnectDelayMs : Option Nat
deriving Repr, DecidableEq

/-- The close branch of `server.js`'s `connection.update` handler (lines
139-161): on `DisconnectReason.loggedOut` the auth files are deleted; a
reconnect after 5000 ms is scheduled exactly when the status code is not
`loggedOut`.  No branch assigns `botStatus`, so it keeps its previous
value. -/
def onCloseSrv (statusCode : Option Nat) (prev : BotStatus) : CloseEffect :=
  { botStatus := prev,
    credsCleared := statusCode == some disconnectReasonLoggedOut,
    reconnectDelayMs :=
      if statusCode == some disconnectReasonLoggedOut then none else some 5000 }

/-- The close branch of `part_000`'s `connection.update` handler (lines
128-143): on status code 401 it calls `cleanAuthFolder()` and schedules
`initWhatsApp` after 3000 ms (leaving `botStatus` unchanged); on any
other code it sets `botStatus = 'reconnecting'` and schedules
`initWhatsApp` after 10000 ms. -/
def onCloseP0 (statusCode : Option Nat) (prev : BotStatus) : CloseEffect :=
  if statusCode == some 401 then
    { botStatus := prev, credsCleared := true, reconnectDelayMs := some 3000 }
  else
    { botStatus := BotStatus.reconnecting, credsCleared := false,
      reconnectDelayMs := some 10000 }

-- ==================== RECONCILER (connection open) ====================

/-- The open branch of `part_000`'s `connection.update` handler (lines
112-126): every entry with status `'pending'` gets
`status = 'linked'`, `linkedAt = now`, `linkedTo = sock.user?.id`;
other entries are untouched. -/
def bulkMarkLinkedP0 (now : Nat) (uid : Option String) (store : Store) : Store :=
  store.map (fun p =>
    if p.2.status = Status.pending then
      (p.1, { p.2 with status := Status.linked, linkedAt := some now,
                       linkedTo := uid })
    else p)

/-- The open branch of `server.js`'s `connection.update` handler (lines
124-137): as in `part_000` but the source sets only `status` and
`linkedAt` — it never assigns `linkedTo`. -/
def bulkMarkLinkedSrv (now : Nat) (store : Store) : Store :=
  store.map (fun p =>
    if p.2.status = Status.pending then
      (p.1, { p.2 with status := Status.linked, linkedAt := some now })
    else p)

-- ==================== SWEEP ====================

/-- The `setInterval` cleanup of `part_000` (lines 874-888): deletes
every entry with `now > expiresAt && status === 'pending'` (note the
strict comparison). -/
def sweepCleanup (now : Nat) (store : Store) : Store :=
  store.filter (fun p =>
    !(decide (p.2.expiresAt < now) && decide (p.2.status = Status.pending)))

-- ==================== /generate-code ROUTE ====================

/-- `!phoneNumber || !/^[0-9]{9}$/.test(phoneNumber)` negated: a falsy
(empty) string also fails the regex, so the check reduces to the regex. -/
def phoneValid (p : String) : Bool :=
  p.length == 9 && p.data.all isDigit09

/-- Outcome of the `POST /generate-code` handler, distinguishing its two
rejection responses from the success payload. -/
inductive RouteResult where
  | invalidPhone
  | notReady
  | ok (code : String) (sessionId : String) (expiresAt : Nat)
deriving Repr, DecidableEq

/-- `POST /generate-code` (`server.js` lines 754-786, `part_000` lines
750-782, identical logic): reject when the phone number fails
`/^[0-9]{9}$/`, then when `botStatus` is neither `'qr_ready'` nor
`'online'`; otherwise call `generateNewPairingCode` (passed in as
`create`, closed over the phone number) and answer with
`{ code, sessionId, expiresAt }`. -/
def generateCodeRoute (create : Store → Option (String × Nat × Store))
    (sessionId : String) (botStatus : BotStatus) (store : Store)
    (phone : String) : Option (RouteResult × Store) :=
  if !(phoneValid phone) then some (RouteResult.invalidPhone, store)
  else if !(botStatus == BotStatus.qrReady) && !(botStatus == BotStatus.online) then
    some (RouteResult.notReady, store)
  else
    match create store with
    | none => none
    | some (code, expiresAt, store2) =>
      some (RouteResult.ok code sessionId expiresAt, store2)

-- ==================== DATABASE-BACKED VARIANT ====================

/-- `status` enum of the `pairingCodeSchema` in `pairing-server.js`
(line 60): `['pending', 'active', 'expired', 'used']`. -/
inductive DbStatus where
  | pending
  | active
  | expired
  | used
deriving Repr, DecidableEq

/-- A `PairingCode` document (`pairing-server.js` lines 34-80; the
request-metadata fields `ipAddress`/`userAgent`/`deviceInfo` are
irrelevant to the claims and omitted). -/
structure DbRecord where
  phoneNumber : String
  countryCode : String
  fullNumber : String
  pairingCode : String
  sessionId : String
  status : DbStatus
  expiresAt : Nat
  createdAt : Nat
  linkedAt : Option Nat
deriving Repr, DecidableEq

/-- The `PairingCode` collection, in insertion order. -/
abbrev DbStore := List DbRecord

/-- `PairingCode.findOne({ pairingCode: code })`. -/
def findOneByCode (store : DbStore) (code : String) : Option DbRecord :=
  store.find? (fun r => r.pairingCode == code)

/-- The update applied by `findOneAndUpdate` in
`POST /api/pairing-linked/:code` (lines 985-992):
`{ status: 'active', linkedAt: new Date() }`. -/
def markActive (now : Nat) (r : DbRecord) : DbRecord :=
  { r with status := DbStatus.active, linkedAt := some now }

/-- `findOneAndUpdate`'s write: replace the first document matching the
code (the schema makes `pairingCode` unique, so at most one matches). -/
def updateFirstByCode (code : String) (f : DbRecord → DbRecord) :
    DbStore → DbStore
  | [] => []
  | r :: rs =>
    if r.pairingCode == code then f r :: rs
    else r :: updateFirstByCode code f rs

/-- `POST /api/pairing-linked/:code` (`pairing-server.js` lines 981-1021):
`findOneAndUpdate({ pairingCode: code }, { status: 'active', linkedAt: now })`
with no condition on the current status; 404 (`false`) exactly when no
document carries the code. -/
def pairingLinkedRoute (now : Nat) (code : String) (store : DbStore) :
    Bool × DbStore :=
  match findOneByCode store code with
  | none => (false, store)
  | some _ => (true, updateFirstByCode code (markActive now) store)

/-- `verifyPairingCodeInBot` (`pairing-server.js` lines 1036-1065): fetch
the pairing status; only when it is `'pending'` call the
`pairing-linked` endpoint.  Modelled sequentially against one store. -/
def verifyPairingCodeInBot (now : Nat) (code : String) (store : DbStore) :
    Bool × DbStore :=
  match findOneByCode store code with
  | some r =>
    if r.status == DbStatus.pending then (true, (pairingLinkedRoute now code store).2)
    else (false, store)
  | none => (false, store)

/-- `/^[0-9]{9,12}$/` of `POST /api/generate-code` (line 820). -/
def phoneValidDb (p : String) : Bool :=
  decide (9 ≤ p.length) && decide (p.length ≤ 12) && p.data.all isDigit09

/-- The `while (!isUnique)` loop of `POST /api/generate-code` (lines
847-854): draw `floor(100000 + random() * 900000)` until no `'pending'`
document carries the drawn code.  The source loop is unbounded; `fuel`
bounds it in the model, `i` indexes the stream of draws. -/
def genUniqueCode (samples : Nat → Nat) (store : DbStore) :
    Nat → Nat → Option String
  | 0, _ => none
  | Nat.succ fuel, i =>
    let pc := toString (100000 + samples i % 900000)
    if (store.find? (fun r => r.pairingCode == pc && r.status == DbStatus.pending)).isSome then
      genUniqueCode samples store fuel (i + 1)
    else some pc

/-- Outcome of `POST /api/generate-code`: the 400 rejection, the
existing-code reuse response, or the newly inserted code. -/
inductive DbGenResult where
  | badRequest
  | okExisting (pairingCode : String) (expiresAt : Nat)
  | okNew (pairingCode : String) (sessionId : String) (expiresAt : Nat)
deriving Repr, DecidableEq

/-- `POST /api/generate-code` (`pairing-server.js` lines 816-903): after
the format check, look for an existing document with the same
`fullNumber`, status `'pending'` and `expiresAt` strictly in the future
(`expiresAt: { $gt: new Date() }`); if found, answer with its code and
expiry and write nothing; otherwise draw a unique 6-digit code and insert
a fresh pending document with `expiresAt = now + 10 minutes`.
`fullNumber = countryCode + phoneNumber.replace(/\D/g, '')`; the phone
has passed the all-digit check so the replace is the identity.  The
companion `BotSession` insert is irrelevant to the claims and omitted. -/
def dbGenerateCodeRoute (samples : Nat → Nat) (fuel : Nat) (now : Nat)
    (sessionId : String) (phone countryCode : String) (store : DbStore) :
    Option (DbGenResult × DbStore) :=
  if !(phoneValidDb phone) then some (DbGenResult.badRequest, store)
  else
    let fullNumber := countryCode ++ phone
    match store.find? (fun r => r.fullNumber == fullNumber &&
        r.status == DbStatus.pending && decide (now < r.expiresAt)) with
    | some ex => some (DbGenResult.okExisting ex.pairingCode ex.expiresAt, store)
    | none =>
      match genUniqueCode samples store fuel 0 with
      | none => none
      | some pc =>
        let record : DbRecord :=
          { phoneNumber := phone, countryCode := countryCode,
            fullNumber := fullNumber, pairingCode := pc,
            sessionId := sessionId, status := DbStatus.pending,
            expiresAt := now + codeExpiryMs, createdAt := now,
            linkedAt := none }
        some (DbGenResult.okNew pc sessionId (now + codeExpiryMs),
              store ++ [record])

-- ==================== CONCRETE FIXTURES ====================

/-- A random stream on which every sample of `sampleCode` is
`"AAAAAAAA"` (all draws hit index 0 of the alphabet). -/
def randomsAllA : Nat → Nat := fun _ => 0

/-- A random stream on which every 8-character sample is `"A0000000"`
(draw 0 of each block hits 'A', the rest hit '0'). -/
def randomsDup : Nat → Nat := fun n => if n % 8 == 0 then 0 else 26

/-- A concrete pending session as created by a generate-code request at
time 0. -/
def sessPending : Session :=
  freshSession "AB12CD34" (some "+254723278526") "IAN_TECH_1" 0 none none

/-- A concrete already-linked session. -/
def sessLinked : Session :=
  { sessPending with code := "ZZ99YY88", status := Status.linked,
                     linkedAt := some 5 }

/-- A pending session whose expiry instant is exactly 100. -/
def sessEdge : Session := { sessPending with expiresAt := 100 }

/-- Store holding only `sessEdge`. -/
def storeEdge : Store := [("AB12CD34", sessEdge)]

/-- Store holding only `sessPending`. -/
def storeOnePending : Store := [("AB12CD34", sessPending)]

/-- Store already holding the code `"A0000000"`, which `randomsDup`
resamples forever. -/
def storeDupFull : Store := [("A0000000", { sessPending with code := "A0000000" })]

/-- First `server.js` create on the empty store under `randomsDup`. -/
def dupRun1 : Option (String × Nat × Store) :=
  generateNewPairingCodeSrv randomsDup 1 1000 "s1" none none [] none

/-- The store left by `dupRun1`. -/
def dupStore1 : Store := (Option.map (fun r => r.2.2) dupRun1).getD []

/-- Second `server.js` create, on `dupStore1`, under the same stream. -/
def dupRun2 : Option (String × Nat × Store) :=
  generateNewPairingCodeSrv randomsDup 1 2000 "s2" none none dupStore1 none

/-- A consumed (`'used'`) document of the database-backed variant. -/
def usedDbRecord : DbRecord :=
  { phoneNumber := "723278526", countryCode := "+254",
    fullNumber := "+254723278526", pairingCode := "123456",
    sessionId := "IAN_TECH_9", status := DbStatus.used,
    expiresAt := 600000, createdAt := 0, linkedAt := none }

/-- A live pending document of the database-backed variant. -/
def pendingDbRecord : DbRecord :=
  { phoneNumber := "723278526", countryCode := "+254",
    fullNumber := "+254723278526", pairingCode := "654321",
    sessionId := "IAN_TECH_8", status := DbStatus.pending,
    expiresAt := 600000, createdAt := 0, linkedAt := none }

/-- The open-branch scenario store: three pending sessions and one
already-linked session. -/
def storeScenario : Store :=
  [("P1AB12C3", { sessPending with code := "P1AB12C3" }),
   ("P2AB12C3", { sessPending with code := "P2AB12C3" }),
   ("P3AB12C3", { sessPending with code := "P3AB12C3" }),
   ("ZZ99YY88", sessLinked)]

-- ==================== HELPER LEMMAS ====================

theorem list_getD_mem {α : Type} (l : List α) (i : Nat) (d : α)
    (h : i < l.length) : l.getD i d ∈ l := by
  induction l generalizing i with
  | nil => simp at h
  | cons a t ih =>
    cases i with
    | zero => simp [List.getD]
    | succ j =>
      have hj : j < t.length := by simpa using h
      simpa [List.getD] using Or.inr (by simpa [List.getD] using ih j hj)

theorem map_id_of_forall {α : Type} (l : List α) (f : α → α)
    (h : ∀ x ∈ l, f x = x) : l.map f = l := by
  induction l with
  | nil => rfl
  | cons a t ih =>
    simp only [List.map_cons]
    rw [h a (by simp), ih (fun x hx => h x (by simp [hx]))]

theorem find?_filter_of_imp {α : Type} (l : List α) (p q : α → Bool)
    (h : ∀ x, p x = true → q x = true) :
    (l.filter q).find? p = l.find? p := by
  induction l with
  | nil => rfl
  | cons a t ih =>
    by_cases hq : q a = true
    · by_cases hp : p a = true
      · simp [List.filter_cons, hq, List.find?, hp]
      · simp [List.filter_cons, hq, List.find?, hp, ih]
    · have hp : p a = false := by
        cases hpa : p a with
        | false => rfl
        | true => exact absurd (h a hpa) hq
      simp [List.filter_cons, hq, List.find?, hp, ih]

theorem find?_eq_some_of_unique {α : Type} (l : List α) (p : α → Bool)
    (r : α) (hmem : r ∈ l) (hr : p r = true)
    (huniq : ∀ x ∈ l, p x = true → x = r) : l.find? p = some r := by
  induction l with
  | nil => simp at hmem
  | cons a t ih =>
    by_cases hp : p a = true
    · have ha : a = r := huniq a (by simp) hp
      subst ha
      simp [List.find?, hp]
    · have hmem2 : r ∈ t := by
        rcases List.mem_cons.mp hmem with h1 | h1
        · exact absurd (h1 ▸ hr) hp
        · exact h1
      have hp2 : p a = false := by
        cases hpa : p a with
        | false => rfl
        | true => exact absurd hpa hp
      simp only [List.find?, hp2]
      exact ih hmem2 (fun x hx hpx => huniq x (by simp [hx]) hpx)

/-- In a store with duplicate-free keys, a key determines its session. -/
theorem assoc_functional (store : Store) (h : nodupKeys store) (k : String)
    (s1 s2 : Session) (h1 : (k, s1) ∈ store) (h2 : (k, s2) ∈ store) :
    s1 = s2 := by
  induction store with
  | nil => simp at h1
  | cons a t ih =>
    have hnd : ¬ a.1 ∈ t.map Prod.fst ∧ (t.map Prod.fst).Nodup := by
      simpa [nodupKeys] using h
    rcases List.mem_cons.mp h1 with e1 | m1
    · rcases List.mem_cons.mp h2 with e2 | m2
      · have : (k, s1) = ((k, s2) : String × Session) := by
          rw [e1, e2]
        exact congrArg Prod.snd this
      · exfalso
        apply hnd.1
        have : a.1 = k := by rw [← e1]
        rw [this]
        exact List.mem_map.mpr ⟨(k, s2), m2, rfl⟩
    · rcases List.mem_cons.mp h2 with e2 | m2
      · exfalso
        apply hnd.1
        have : a.1 = k := by rw [← e2]
        rw [this]
        exact List.mem_map.mpr ⟨(k, s1), m1, rfl⟩
      · exact ih hnd.2 m1 m2

/-- Every character of a raw sample comes from the alphabet. -/
theorem sampleCode_mem (r : Nat → Nat) (off : Nat) :
    ∀ c ∈ (sampleCode r off).data, c ∈ codeChars := by
  intro c hc
  have h2 : (sampleCode r off).data
      = (List.range codeLength).map
          (fun i => codeChars.getD (r (off + i) % codeChars.length) 'A') := rfl
  rw [h2] at hc
  obtain ⟨i, _, he⟩ := List.mem_map.mp hc
  rw [← he]
  exact list_getD_mem _ _ _ (Nat.mod_lt _ (by decide))

/-- A raw sample always has the configured length. -/
theorem sampleCode_length (r : Nat → Nat) (off : Nat) :
    (sampleCode r off).length = codeLength := by
  have h2 : (sampleCode r off).length
      = ((List.range codeLength).map
          (fun i => codeChars.getD (r (off + i) % codeChars.length) 'A')).length := rfl
  rw [h2]
  simp

/-- Whenever `generateAlphanumericCode` returns, the returned code has
length 8, contains a letter and a digit (that is exactly the loop exit
condition) and is drawn from the alphabet. -/
theorem generateAlphanumericCode_format (r : Nat → Nat) (fuel : Nat) :
    ∀ off c off2, generateAlphanumericCode r off fuel = some (c, off2) →
      c.length = codeLength ∧ hasLetters c = true ∧ hasNumbers c = true ∧
      ∀ ch ∈ c.data, ch ∈ codeChars := by
  induction fuel with
  | zero =>
    intro off c off2 h
    simp [generateAlphanumericCode] at h
  | succ n ih =>
    intro off c off2 h
    simp only [generateAlphanumericCode] at h
    by_cases hc : (hasLetters (sampleCode r off) && hasNumbers (sampleCode r off)) = true
    · rw [if_pos hc] at h
      obtain ⟨rfl, -⟩ : sampleCode r off = c ∧ off + codeLength = off2 := by
        have := Option.some.inj h
        exact ⟨congrArg Prod.fst this, congrArg Prod.snd this⟩
      obtain ⟨h1, h2⟩ := Bool.and_eq_true_iff.mp hc
      exact ⟨sampleCode_length r off, h1, h2, sampleCode_mem r off⟩
    · rw [if_neg hc] at h
      exact ih (off + codeLength) c off2 h

/-- On the all-letters stream the rejection-sampling recursion never
returns, whatever the number of attempts allowed. -/
theorem generateAlphanumericCode_allA (fuel : Nat) :
    ∀ off, generateAlphanumericCode randomsAllA off fuel = none := by
  induction fuel with
  | zero => intro off; rfl
  | succ n ih =>
    intro off
    have hs : sampleCode randomsAllA off = "AAAAAAAA" := rfl
    have hcond : (hasLetters (sampleCode randomsAllA off) &&
        hasNumbers (sampleCode randomsAllA off)) = false := by
      rw [hs]; decide
    simp only [generateAlphanumericCode, hcond, Bool.false_eq_true, if_false]
    exact ih (off + codeLength)

/-- Soundness of the collision loop: the returned code is an output of
`generateAlphanumericCode`; when the loop exits with fewer than 10
attempts the code is absent from the store; and the attempt counter grows
by at most the structural bound. -/
theorem collisionLoopAux_sound (r : Nat → Nat) (fuel : Nat) (store : Store) :
    ∀ rem off att c off2 att2,
      collisionLoopAux r fuel store rem off att = some (c, off2, att2) →
      (∃ off0, generateAlphanumericCode r off0 fuel = some (c, off2)) ∧
      (att2 < 10 → mapHas store c = false) ∧ att2 ≤ att + rem := by
  intro rem
  induction rem with
  | zero =>
    intro off att c off2 att2 h
    simp [collisionLoopAux] at h
  | succ n ih =>
    intro off att c off2 att2 h
    simp only [collisionLoopAux] at h
    cases hg : generateAlphanumericCode r off fuel with
    | none => rw [hg] at h; simp at h
    | some p =>
      obtain ⟨code, offn⟩ := p
      rw [hg] at h
      simp only at h
      by_cases hcond : (mapHas store code && decide (att + 1 < 10)) = true
      · rw [if_pos hcond] at h
        obtain ⟨h1, h2, h3⟩ := ih offn (att + 1) c off2 att2 h
        exact ⟨h1, h2, by omega⟩
      · rw [if_neg hcond] at h
        have hinj := Option.some.inj h
        obtain ⟨hc, ho, ha⟩ : code = c ∧ offn = off2 ∧ att + 1 = att2 := by
          refine ⟨congrArg (fun t => t.1) hinj, ?_, ?_⟩
          · exact congrArg (fun t => t.2.1) hinj
          · exact congrArg (fun t => t.2.2) hinj
        subst hc; subst ho; subst ha
        refine ⟨⟨off, hg⟩, ?_, by omega⟩
        intro hlt
        cases hhas : mapHas store code with
        | false => rfl
        | true =>
          exfalso
          apply hcond
          rw [hhas]
          simp [hlt]

/-- A key that `mapHas` rejects is not among the store's keys. -/
theorem mapHas_false_not_mem (store : Store) (k : String)
    (h : mapHas store k = false) : k ∉ store.map Prod.fst := by
  intro hk
  obtain ⟨p, hp, he⟩ := List.mem_map.mp hk
  have h2 : ∀ x ∈ store, ¬ (x.1 == k) = true := by
    simpa [mapHas] using h
  exact h2 p hp (by simp [he])

/-- `Map.set` keeps keys duplicate-free: replacing in place preserves the
key list, and the append branch adds a key that was absent. -/
theorem mapSet_nodupKeys (store : Store) (k : String) (v : Session)
    (h : nodupKeys store) : nodupKeys (mapSet store k v) := by
  unfold mapSet
  by_cases hh : mapHas store k = true
  · rw [if_pos hh]
    unfold nodupKeys
    have he : (store.map (fun p => if p.1 == k then (k, v) else p)).map Prod.fst
        = store.map Prod.fst := by
      rw [List.map_map]
      apply List.map_congr_left
      intro p _
      by_cases hk : (p.1 == k) = true
      · have hpk : p.1 = k := by simpa using hk
        simp [Function.comp, hk, hpk]
      · simp [Function.comp, hk]
    rw [he]
    exact h
  · rw [if_neg hh]
    unfold nodupKeys
    rw [List.map_append]
    refine List.Nodup.append h (by simp) ?_
    intro a ha hb
    have hak : a = k := by simpa using hb
    subst hak
    exact mapHas_false_not_mem store a (by simpa using hh) ha

/-- After `Map.delete code` the code resolves to nothing. -/
theorem mapGet_delete_self (store : Store) (k : String) :
    mapGet (mapDelete store k) k = none := by
  unfold mapGet mapDelete
  have hf : (store.filter (fun p => !(p.1 == k))).find? (fun p => p.1 == k)
      = none := by
    rw [List.find?_eq_none]
    intro p hp
    have h2 := (List.mem_filter.mp hp).2
    simp at h2
    simp [h2]
  rw [hf]
  rfl

/-- `Map.delete code` does not touch other keys. -/
theorem mapGet_delete_other (store : Store) (k k2 : String) (h : k2 ≠ k) :
    mapGet (mapDelete store k) k2 = mapGet store k2 := by
  unfold mapGet mapDelete
  rw [find?_filter_of_imp]
  intro p hp
  have hpk : p.1 = k2 := by simpa using hp
  simp [hpk, h]

-- ==================== CLAIM THEOREMS ====================

/-- C1 counterexample: in the `server.js` variant, whose
`generateNewPairingCode` performs no collision check, two create requests
whose random draws coincide return the same code — refuting the claim
that distinct create requests always return distinct codes (so 100
creates need not produce 100 unique codes).  The second create finds the
first code already in the store and silently overwrites it. -/
theorem create_returns_duplicate_code :
    Option.map (fun r => r.1) dupRun1 = some "A0000000" ∧
    Option.map (fun r => r.1) dupRun2 = some "A0000000" ∧
    mapHas dupStore1 "A0000000" = true := by decide

/-- C1 (amended): the store, being a JavaScript `Map`, never holds two
sessions under one code — lookups are functional given duplicate-free
keys, and both variants' create operations preserve duplicate-free keys —
and in the `part_000` variant the collision loop returns a code absent
from the store whenever it exits in fewer than 10 attempts; but the
`server.js` variant performs no collision check, so distinct create
requests are not guaranteed distinct codes (see the counterexample). -/
theorem live_session_code_uniqueness (store : Store) (k : String)
    (s1 s2 : Session) (randoms : Nat → Nat) (fuel now : Nat) (sid : String)
    (qrD qrI : Option String) (phone : Option String) :
    (nodupKeys store → (k, s1) ∈ store → (k, s2) ∈ store → s1 = s2)
    ∧ (∀ c e st2, nodupKeys store →
        generateNewPairingCodeSrv randoms fuel now sid qrD qrI store phone
          = some (c, e, st2) → nodupKeys st2)
    ∧ (∀ c e st2, nodupKeys store →
        generateNewPairingCodeP0 randoms fuel now sid store phone
          = some (c, e, st2) → nodupKeys st2)
    ∧ (∀ c off2 att2, collisionLoop randoms fuel store = some (c, off2, att2) →
        att2 < 10 → mapHas store c = false) := by
  refine ⟨fun hnd h1 h2 => assoc_functional store hnd k s1 s2 h1 h2, ?_, ?_, ?_⟩
  · intro c e st2 hnd h
    unfold generateNewPairingCodeSrv at h
    cases hg : generateAlphanumericCode randoms 0 fuel with
    | none => rw [hg] at h; simp at h
    | some p =>
      rw [hg] at h
      simp only [Option.some.injEq] at h
      have hst : mapSet store p.1 (freshSession p.1 phone sid now qrD qrI) = st2 := by
        have := congrArg (fun t => t.2.2) h
        simpa using this
      rw [← hst]
      exact mapSet_nodupKeys store p.1 _ hnd
  · intro c e st2 hnd h
    unfold generateNewPairingCodeP0 at h
    cases hg : choosePairingCode randoms fuel store now with
    | none => rw [hg] at h; simp at h
    | some code =>
      rw [hg] at h
      simp only [Option.some.injEq] at h
      have hst : mapSet store code (freshSession code phone sid now none none) = st2 := by
        have := congrArg (fun t => t.2.2) h
        simpa using this
      rw [← hst]
      exact mapSet_nodupKeys store code _ hnd
  · intro c off2 att2 h hlt
    exact ((collisionLoopAux_sound randoms fuel store 10 0 0 c off2 att2 h).2.1) hlt

/-- C1 witness: on the empty store the collision loop exits on the first
attempt, and the theorem yields that the returned code was absent. -/
theorem live_session_code_uniqueness_witness :
    mapHas ([] : Store) "A0000000" = false :=
  (live_session_code_uniqueness [] "" sessPending sessPending randomsDup 1 0 ""
      none none none).2.2.2 "A0000000" 8 1 (by decide) (by decide)

/-- C2: the expiry action scheduled at creation removes the record if and
only if it is still pending when the action fires: if the code is absent
or its session left `pending` (for example `markLinked` or the
connection-open reconciler set it to `linked` before the TTL elapsed),
the late-firing action changes nothing; if it is still pending the record
is removed and no other key is touched. -/
theorem expiry_action_race_safety (store : Store) (code : String) :
    ((∀ s, mapGet store code = some s → s.status ≠ Status.pending) →
        expiryAction code store = store)
    ∧ (∀ s, mapGet store code = some s → s.status = Status.pending →
        mapGet (expiryAction code store) code = none ∧
        ∀ k, k ≠ code → mapGet (expiryAction code store) k = mapGet store k) := by
  constructor
  · intro hnp
    cases hg : mapGet store code with
    | none => simp [expiryAction, hg]
    | some s =>
      have hns := hnp s hg
      simp [expiryAction, hg, if_neg hns]
  · intro s hg hp
    have he : expiryAction code store = mapDelete store code := by
      simp [expiryAction, hg, if_pos hp]
    rw [he]
    exact ⟨mapGet_delete_self store code, fun k hk => mapGet_delete_other store code k hk⟩

/-- C2 witness: a store holding one linked session is untouched by the
expiry action on that code. -/
theorem expiry_action_race_safety_witness :
    expiryAction "ZZ99YY88" [("ZZ99YY88", sessLinked)] = [("ZZ99YY88", sessLinked)] :=
  (expiry_action_race_safety [("ZZ99YY88", sessLinked)] "ZZ99YY88").1 (fun s h => by
    have hs : s = sessLinked := by
      have h2 : mapGet [("ZZ99YY88", sessLinked)] "ZZ99YY88" = some sessLinked := rfl
      rw [h2] at h
      exact (Option.some.inj h).symm
    rw [hs]
    decide)

/-- C3 counterexample: the rejection-sampling loop of
`generateAlphanumericCode` has no cap: on a stream whose every sample is
all letters it is still resampling after 50 attempts (it has produced
neither a code nor a timestamp-suffix fallback), contradicting the
claimed bounded retry cap with fallback. -/
theorem rejection_sampling_exceeds_any_cap :
    generateAlphanumericCode randomsAllA 0 50 = none := by decide

/-- C3 (amended): the letter-and-digit rejection sampling in
`generateAlphanumericCode` recurses without any cap — on the all-letters
stream it never returns, whatever the number of attempts allowed — while
the bounded retry (at most 10 attempts) with timestamp-suffix fallback
belongs to the separate collision-resampling loop of `part_000`'s
`generateNewPairingCode`. -/
theorem rejection_sampling_uncapped (fuel : Nat) (r : Nat → Nat)
    (store : Store) :
    generateAlphanumericCode randomsAllA 0 fuel = none
    ∧ (∀ c off2 att2, collisionLoop r fuel store = some (c, off2, att2) →
        att2 ≤ 10) := by
  refine ⟨generateAlphanumericCode_allA fuel 0, ?_⟩
  intro c off2 att2 h
  have := (collisionLoopAux_sound r fuel store 10 0 0 c off2 att2 h).2.2
  omega

/-- C3 witness: on a passing stream the collision loop over the empty
store exits after one attempt, within the bound. -/
theorem rejection_sampling_uncapped_witness : (1 : Nat) ≤ 10 :=
  (rejection_sampling_uncapped 1 randomsDup []).2 "A0000000" 8 1 (by decide)

/-- C4 counterexample: the collision-fallback path of `part_000`'s
`generateNewPairingCode` returns `code + '_' + timestamp`, a 13-character
string containing an underscore, which is outside the A-Z0-9 alphabet
and not of length 8 — refuting the claim for the fallback path. -/
theorem fallback_code_not_eight_chars :
    choosePairingCode randomsDup 1 storeDupFull 1234 = some "A0000000_1234" ∧
    "A0000000_1234".length = 13 ∧
    ('_' ∈ "A0000000_1234".data ∧ ('_' ∈ codeChars) = False) := by decide

/-- C4 (amended): every code returned by `generateAlphanumericCode` has
length exactly 8, contains at least one uppercase letter and one digit,
and draws all characters from A-Z0-9; the code chosen by `part_000`'s
create is either such a code (the non-fallback path) or, on the
collision-fallback path, such an 8-character code followed by an
underscore and the last four digits of the timestamp. -/
theorem create_code_format (randoms : Nat → Nat) (fuel : Nat) (store : Store)
    (now : Nat) :
    (∀ off c off2, generateAlphanumericCode randoms off fuel = some (c, off2) →
        c.length = codeLength ∧ hasLetters c = true ∧ hasNumbers c = true ∧
        ∀ ch ∈ c.data, ch ∈ codeChars)
    ∧ (∀ code, choosePairingCode randoms fuel store now = some code →
        (code.length = codeLength ∧ hasLetters code = true ∧
          hasNumbers code = true ∧ ∀ ch ∈ code.data, ch ∈ codeChars)
        ∨ ∃ base, (base.length = codeLength ∧ hasLetters base = true ∧
            hasNumbers base = true ∧ ∀ ch ∈ base.data, ch ∈ codeChars) ∧
            code = base ++ "_" ++ lastFour now) := by
  refine ⟨fun off c off2 h => generateAlphanumericCode_format randoms fuel off c off2 h, ?_⟩
  intro code h
  unfold choosePairingCode at h
  cases hl : collisionLoop randoms fuel store with
  | none => rw [hl] at h; simp at h
  | some t =>
    obtain ⟨c0, off2, att⟩ := t
    rw [hl] at h
    simp only at h
    by_cases hatt : 10 ≤ att
    · rw [if_pos hatt] at h
      cases hg : generateAlphanumericCode randoms off2 fuel with
      | none => rw [hg] at h; simp at h
      | some p =>
        obtain ⟨c2, off3⟩ := p
        rw [hg] at h
        simp only [Option.some.injEq] at h
        right
        exact ⟨c2, generateAlphanumericCode_format randoms fuel off2 c2 off3 hg, h.symm⟩
    · rw [if_neg hatt] at h
      left
      obtain ⟨⟨off0, hg⟩, -, -⟩ :=
        collisionLoopAux_sound randoms fuel store 10 0 0 c0 off2 att hl
      have hc : c0 = code := Option.some.inj h
      rw [← hc]
      exact generateAlphanumericCode_format randoms fuel off0 c0 off2 hg

/-- C4 witness: a concrete sample satisfies the format properties. -/
theorem create_code_format_witness :
    "A0000000".length = codeLength ∧ hasLetters "A0000000" = true ∧
    hasNumbers "A0000000" = true ∧ ∀ ch ∈ "A0000000".data, ch ∈ codeChars :=
  (create_code_format randomsDup 1 [] 0).1 0 "A0000000" 8 (by decide)

/-- C5 counterexample: on a logged-out close (status code 401 =
`DisconnectReason.loggedOut`) the `server.js` handler leaves `botStatus`
unchanged (here `online`, not `disconnected`), and the `part_000` handler
schedules a reconnect after 3 seconds — both contradicting the claim that
the state becomes `disconnected` with no reconnect scheduled. -/
theorem close_handler_state_mismatch :
    (onCloseSrv (some disconnectReasonLoggedOut) BotStatus.online).botStatus
      = BotStatus.online ∧
    ((onCloseSrv (some disconnectReasonLoggedOut) BotStatus.online).botStatus
      = BotStatus.disconnected) = False ∧
    (onCloseP0 (some 401) BotStatus.online).reconnectDelayMs = some 3000 := by
  decide

/-- C5 (amended): on a logged-out close `server.js` clears the stored
credentials and schedules no reconnect but leaves the connection state
unchanged; on any other close reason it schedules a 5-second reconnect,
again leaving the state unchanged.  In the `part_000` variant a non-401
close sets the state to `reconnecting` and schedules a 10-second
reconnect, while a 401 close clears credentials but also schedules a
3-second reconnect. -/
theorem close_handler_spec (sc : Option Nat) (prev : BotStatus) :
    ((onCloseSrv (some disconnectReasonLoggedOut) prev).credsCleared = true
      ∧ (onCloseSrv (some disconnectReasonLoggedOut) prev).reconnectDelayMs = none
      ∧ (onCloseSrv (some disconnectReasonLoggedOut) prev).botStatus = prev)
    ∧ (sc ≠ some disconnectReasonLoggedOut →
        (onCloseSrv sc prev).reconnectDelayMs = some 5000
        ∧ (onCloseSrv sc prev).botStatus = prev
        ∧ (onCloseSrv sc prev).credsCleared = false)
    ∧ ((onCloseP0 (some 401) prev).credsCleared = true
      ∧ (onCloseP0 (some 401) prev).reconnectDelayMs = some 3000
      ∧ (onCloseP0 (some 401) prev).botStatus = prev)
    ∧ (sc ≠ some 401 →
        (onCloseP0 sc prev).botStatus = BotStatus.reconnecting
        ∧ (onCloseP0 sc prev).reconnectDelayMs = some 10000
        ∧ (onCloseP0 sc prev).credsCleared = false) := by
  refine ⟨by simp [onCloseSrv], ?_, by simp [onCloseP0], ?_⟩
  · intro hne
    have hb : (sc == some disconnectReasonLoggedOut) = false := by
      simpa using hne
    simp [onCloseSrv, hb]
  · intro hne
    have hb : (sc == some 401) = false := by
      simpa [disconnectReasonLoggedOut] using hne
    simp [onCloseP0, hb]

/-- C5 witness: a connection-lost close (status code 408) schedules a
reconnect in both variants. -/
theorem close_handler_spec_witness :
    (onCloseSrv (some 408) BotStatus.online).reconnectDelayMs = some 5000 ∧
    (onCloseP0 (some 408) BotStatus.online).botStatus = BotStatus.reconnecting :=
  ⟨((close_handler_spec (some 408) BotStatus.online).2.1 (by decide)).1,
   ((close_handler_spec (some 408) BotStatus.online).2.2.2 (by decide)).1⟩

/-- The update written by `pairing-linked` keeps the pairing code, so the
updated document is still found under the same code. -/
theorem findOne_updateFirst (now : Nat) (code : String) (store : DbStore)
    (r : DbRecord) (h : findOneByCode store code = some r) :
    findOneByCode (updateFirstByCode code (markActive now) store) code
      = some (markActive now r) := by
  induction store with
  | nil => simp [findOneByCode] at h
  | cons a t ih =>
    by_cases hc : (a.pairingCode == code) = true
    · have har : a = r := by
        simpa [findOneByCode, List.find?, hc] using h
      subst har
      have hc2 : ((markActive now a).pairingCode == code) = true := hc
      simp [updateFirstByCode, hc, findOneByCode, List.find?, hc2]
    · have hc0 : (a.pairingCode == code) = false := by
        cases hx : (a.pairingCode == code) with
        | false => rfl
        | true => exact absurd hx hc
      have ht : findOneByCode t code = some r := by
        simpa [findOneByCode, List.find?, hc0] using h
      simp [updateFirstByCode, hc0, findOneByCode, List.find?]
      simpa [findOneByCode] using ih ht

/-- C6 counterexample: `POST /api/pairing-linked/:code` updates the
matched document unconditionally, so a session already in the terminal
state `used` is moved back to `active` — refuting the claim that no
operation changes the status of a terminal session. -/
theorem mark_linked_overwrites_terminal :
    Option.map (fun r => r.status)
        (findOneByCode (pairingLinkedRoute 999 "123456" [usedDbRecord]).2 "123456")
      = some DbStatus.active ∧
    usedDbRecord.status = DbStatus.used := by decide

/-- C6 (amended): the `pairing-linked` endpoint answers not-found exactly
when no document carries the code, and otherwise sets the matched
document to `active` with `linkedAt` stamped regardless of its current
status — monotonicity is not enforced by the endpoint itself.  The
collaborator-verification path `verifyPairingCodeInBot`, which checks for
`pending` before calling the endpoint, leaves terminal sessions unchanged
under sequential execution. -/
theorem mark_linked_endpoint_spec (now : Nat) (code : String)
    (store : DbStore) :
    (findOneByCode store code = none →
        pairingLinkedRoute now code store = (false, store))
    ∧ (∀ r, findOneByCode store code = some r →
        (pairingLinkedRoute now code store).1 = true ∧
        findOneByCode (pairingLinkedRoute now code store).2 code
          = some (markActive now r))
    ∧ (∀ r, findOneByCode store code = some r → r.status ≠ DbStatus.pending →
        verifyPairingCodeInBot now code store = (false, store)) := by
  refine ⟨?_, ?_, ?_⟩
  · intro h
    simp [pairingLinkedRoute, h]
  · intro r h
    constructor
    · simp [pairingLinkedRoute, h]
    · have h2 : (pairingLinkedRoute now code store).2
          = updateFirstByCode code (markActive now) store := by
        simp [pairingLinkedRoute, h]
      rw [h2]
      exact findOne_updateFirst now code store r h
  · intro r h hnp
    have hb : (r.status == DbStatus.pending) = false := by
      simpa using hnp
    simp [verifyPairingCodeInBot, h, hb]

/-- C6 witness: the verification path does not touch a `used` record. -/
theorem mark_linked_endpoint_spec_witness :
    verifyPairingCodeInBot 999 "123456" [usedDbRecord] = (false, [usedDbRecord]) :=
  (mark_linked_endpoint_spec 999 "123456" [usedDbRecord]).2.2 usedDbRecord
    (by decide) (by decide)

/-- After the open-branch pass of `part_000` nothing is pending: pending
entries became linked, the rest kept their non-pending status. -/
theorem bulkMarkLinkedP0_no_pending (n : Nat) (u : Option String)
    (store : Store) :
    ∀ p ∈ bulkMarkLinkedP0 n u store, ¬ p.2.status = Status.pending := by
  intro p hp
  obtain ⟨q, hq, he⟩ := List.mem_map.mp hp
  by_cases hs : q.2.status = Status.pending
  · rw [← he]
    simp [hs]
  · rw [← he]
    simp [if_neg hs]
    exact hs

/-- Same fact for the `server.js` open branch. -/
theorem bulkMarkLinkedSrv_no_pending (n : Nat) (store : Store) :
    ∀ p ∈ bulkMarkLinkedSrv n store, ¬ p.2.status = Status.pending := by
  intro p hp
  obtain ⟨q, hq, he⟩ := List.mem_map.mp hp
  by_cases hs : q.2.status = Status.pending
  · rw [← he]
    simp [hs]
  · rw [← he]
    simp [if_neg hs]
    exact hs

/-- C7 counterexample: the `server.js` open branch transitions a pending
session to linked but stamps only `linkedAt` — `linkedTo` stays null
(the handler has no account identifier at all), refuting the claimed
stamping of `linkedTo`. -/
theorem open_branch_no_linkedTo :
    Option.map (fun s => (s.status, s.linkedTo))
        (mapGet (bulkMarkLinkedSrv 7 storeOnePending) "AB12CD34")
      = some (Status.linked, none) := by decide

/-- C7 (amended): the bulk mark-linked performed on connection-open is
idempotent and scoped to pending records in both variants: exactly the
sessions pending at call time become linked, already-non-pending entries
are untouched, and a second invocation (with any timestamp and account
id) changes nothing, so every `linkedAt` is unchanged after the first
call.  `part_000` stamps `linkedAt` and `linkedTo`; `server.js` stamps
only `linkedAt`. -/
theorem bulk_mark_linked_spec (n1 n2 : Nat) (u1 u2 : Option String)
    (store : Store) :
    bulkMarkLinkedP0 n2 u2 (bulkMarkLinkedP0 n1 u1 store)
      = bulkMarkLinkedP0 n1 u1 store
    ∧ bulkMarkLinkedSrv n2 (bulkMarkLinkedSrv n1 store)
      = bulkMarkLinkedSrv n1 store
    ∧ (∀ k s, (k, s) ∈ store → s.status = Status.pending →
        (k, { s with status := Status.linked, linkedAt := some n1,
                     linkedTo := u1 }) ∈ bulkMarkLinkedP0 n1 u1 store)
    ∧ (∀ k s, (k, s) ∈ store → s.status ≠ Status.pending →
        (k, s) ∈ bulkMarkLinkedP0 n1 u1 store)
    ∧ (∀ k s, (k, s) ∈ store → s.status = Status.pending →
        (k, { s with status := Status.linked, linkedAt := some n1 })
          ∈ bulkMarkLinkedSrv n1 store)
    ∧ (∀ k s, (k, s) ∈ store → s.status ≠ Status.pending →
        (k, s) ∈ bulkMarkLinkedSrv n1 store) := by
  refine ⟨?_, ?_, ?_, ?_, ?_, ?_⟩
  · apply map_id_of_forall
    intro p hp
    rw [if_neg (bulkMarkLinkedP0_no_pending n1 u1 store p hp)]
  · apply map_id_of_forall
    intro p hp
    rw [if_neg (bulkMarkLinkedSrv_no_pending n1 store p hp)]
  · intro k s hm hs
    exact List.mem_map.mpr ⟨(k, s), hm, by simp [hs]⟩
  · intro k s hm hs
    exact List.mem_map.mpr ⟨(k, s), hm, by simp [if_neg hs]⟩
  · intro k s hm hs
    exact List.mem_map.mpr ⟨(k, s), hm, by simp [hs]⟩
  · intro k s hm hs
    exact List.mem_map.mpr ⟨(k, s), hm, by simp [if_neg hs]⟩

/-- C7 witness: in the three-pending-plus-one-linked scenario the linked
session is untouched (its `linkedAt` stays `some 5`) and a pending one is
transitioned with both stamps. -/
theorem bulk_mark_linked_spec_witness :
    ("ZZ99YY88", sessLinked) ∈ bulkMarkLinkedP0 9 (some "uid") storeScenario ∧
    ("P1AB12C3", { sessPending with code := "P1AB12C3",
                                    status := Status.linked,
                                    linkedAt := some 9,
                                    linkedTo := some "uid" })
      ∈ bulkMarkLinkedP0 9 (some "uid") storeScenario :=
  ⟨(bulk_mark_linked_spec 9 0 (some "uid") none storeScenario).2.2.2.1
      "ZZ99YY88" sessLinked (by decide) (by decide),
   (bulk_mark_linked_spec 9 0 (some "uid") none storeScenario).2.2.1
      "P1AB12C3" { sessPending with code := "P1AB12C3" } (by decide) (by decide)⟩

/-- C8: the generate-code route rejects exactly when the phone number
fails the nine-digit format check (first) or the connection state is
neither `qr_ready` nor `online` (second), leaving the store unchanged in
both cases; otherwise its answer is the create operation's
`{ code, sessionId, expiresAt }` together with the updated store. -/
theorem generate_code_route_spec
    (create : Store → Option (String × Nat × Store)) (sid : String)
    (bs : BotStatus) (store : Store) (phone : String) :
    (phoneValid phone = false →
        generateCodeRoute create sid bs store phone
          = some (RouteResult.invalidPhone, store))
    ∧ (phoneValid phone = true → bs ≠ BotStatus.qrReady → bs ≠ BotStatus.online →
        generateCodeRoute create sid bs store phone
          = some (RouteResult.notReady, store))
    ∧ (phoneValid phone = true → (bs = BotStatus.qrReady ∨ bs = BotStatus.online) →
        generateCodeRoute create sid bs store phone
          = Option.map (fun r => (RouteResult.ok r.1 sid r.2.1, r.2.2))
              (create store)) := by
  refine ⟨?_, ?_, ?_⟩
  · intro h
    simp [generateCodeRoute, h]
  · intro h hq ho
    have hbq : (bs == BotStatus.qrReady) = false := by simpa using hq
    have hbo : (bs == BotStatus.online) = false := by simpa using ho
    simp [generateCodeRoute, h, hbq, hbo]
  · intro h hready
    have hcond : (!(bs == BotStatus.qrReady) && !(bs == BotStatus.online)) = false := by
      rcases hready with hb | hb
      · simp [hb]
      · simp [hb]
    simp only [generateCodeRoute, h, Bool.not_true, Bool.false_eq_true,
      if_false, hcond]
    cases create store with
    | none => rfl
    | some r => rfl

/-- C8 witness: a valid phone in state `qr_ready` gets a code and an
invalid phone is rejected with the store unchanged. -/
theorem generate_code_route_spec_witness :
    generateCodeRoute
        (fun st => generateNewPairingCodeSrv randomsDup 1 0 "sid" none none st none)
        "sid" BotStatus.qrReady [] "723278526"
      = some (RouteResult.ok "A0000000" "sid" codeExpiryMs,
          [("A0000000", freshSession "A0000000" none "sid" 0 none none)]) ∧
    generateCodeRoute
        (fun st => generateNewPairingCodeSrv randomsDup 1 0 "sid" none none st none)
        "sid" BotStatus.disconnected [] "12"
      = some (RouteResult.invalidPhone, []) := by
  constructor
  · rw [(generate_code_route_spec
        (fun st => generateNewPairingCodeSrv randomsDup 1 0 "sid" none none st none)
        "sid" BotStatus.qrReady [] "723278526").2.2 (by decide) (Or.inl rfl)]
    decide
  · exact (generate_code_route_spec
        (fun st => generateNewPairingCodeSrv randomsDup 1 0 "sid" none none st none)
        "sid" BotStatus.disconnected [] "12").1 (by decide)

/-- C9 counterexample: the sweep deletes only when `now > expiresAt`
(strict), so a pending record whose `expiresAt` equals the sweep instant
survives the pass — refuting the claimed removal of every pending record
with `expiresAt <= now`. -/
theorem sweep_keeps_boundary_record :
    sweepCleanup 100 storeEdge = storeEdge ∧
    sessEdge.status = Status.pending ∧ sessEdge.expiresAt ≤ 100 := by decide

/-- C9 (amended): a sweep pass at time `now` removes exactly the records
that are pending with `expiresAt` strictly less than `now`; a pending
record with `expiresAt = now` survives this pass (it is removed only by a
later pass run after its expiry instant), and linked or not-yet-expired
records are never removed. -/
theorem sweep_spec (now : Nat) (store : Store) (k : String) (s : Session) :
    (k, s) ∈ sweepCleanup now store ↔
      ((k, s) ∈ store ∧ ¬(s.status = Status.pending ∧ s.expiresAt < now)) := by
  unfold sweepCleanup
  rw [List.mem_filter]
  constructor
  · rintro ⟨hm, hp⟩
    refine ⟨hm, ?_⟩
    rintro ⟨hs, he⟩
    simp [hs, he] at hp
  · rintro ⟨hm, hp⟩
    refine ⟨hm, ?_⟩
    by_cases hs : s.status = Status.pending
    · by_cases he : s.expiresAt < now
      · exact absurd ⟨hs, he⟩ hp
      · simp [hs, he]
    · simp [hs]

/-- C9 witness: the boundary-instant record is a member of the swept
store. -/
theorem sweep_spec_witness :
    ("AB12CD34", sessEdge) ∈ sweepCleanup 100 storeEdge :=
  (sweep_spec 100 storeEdge "AB12CD34" sessEdge).mpr (by decide)

/-- C10: while a phone number has a pending record whose expiry is
strictly in the future, a further generate-code request for the same full
number (passing the format check) returns that record's code and expiry
and leaves the collection unchanged — per-number idempotence of code
issuance while a code is live.  The uniqueness hypothesis reflects the
schema's unique index on `fullNumber`. -/
theorem db_generate_code_reuses_live_code (samples : Nat → Nat)
    (fuel now : Nat) (sid phone cc : String) (store : DbStore) (r : DbRecord)
    (hphone : phoneValidDb phone = true) (hmem : r ∈ store)
    (hfull : r.fullNumber = cc ++ phone) (hpend : r.status = DbStatus.pending)
    (hlive : now < r.expiresAt)
    (huniq : ∀ x ∈ store, x.fullNumber = cc ++ phone → x = r) :
    dbGenerateCodeRoute samples fuel now sid phone cc store
      = some (DbGenResult.okExisting r.pairingCode r.expiresAt, store) := by
  have hfind : store.find? (fun x => x.fullNumber == cc ++ phone &&
      x.status == DbStatus.pending && decide (now < x.expiresAt)) = some r := by
    apply find?_eq_some_of_unique store _ r hmem
    · simp [hfull, hpend, hlive]
    · intro x hx hpx
      have h1 : (x.fullNumber == cc ++ phone) = true := by
        have := (Bool.and_eq_true_iff.mp
          ((Bool.and_eq_true_iff.mp hpx).1)).1
        exact this
      exact huniq x hx (by simpa using h1)
  simp [dbGenerateCodeRoute, hphone, hfind]

/-- C10 witness: a second request for `+254 723278526` while its pending
record is live answers with the stored code `"654321"` and writes
nothing. -/
theorem db_generate_code_reuses_live_code_witness :
    dbGenerateCodeRoute randomsAllA 1 10 "sid" "723278526" "+254"
        [pendingDbRecord]
      = some (DbGenResult.okExisting "654321" 600000, [pendingDbRecord]) :=
  db_generate_code_reuses_live_code randomsAllA 1 10 "sid" "723278526" "+254"
    [pendingDbRecord] pendingDbRecord (by decide) (by decide) (by decide)
    (by decide) (by decide) (by decide)
